import Mathlib

/-!
Shallow embedding of the TTS cache module (`src/tts.py`) of the PersonalAI
repository, together with theorems settling the specification claims about it.

The module keeps a directory `tts_cache` of MP3 artifacts named by the SHA-256
hex digest of the synthesized text.  `text_to_speech` checks the cache, and on a
miss invokes the gTTS backend which writes the artifact directly to the cache
path.  `clear_cache` and `get_cache_stats` enumerate the `.mp3` files of the
directory.  We model the directory as an optional association list from file
names to byte contents (`none` = directory absent), plus a flag for an
unreadable directory (`os.listdir` raising), and the external gTTS backend as an
oracle whose failures may leave bytes behind at the destination path, since
`gTTS.save` opens the destination file and then streams the HTTP response into
it.  Bytes are `Nat` (values below 256).
-/

namespace TTS

/-- `2 ^ 32`; all SHA-256 word arithmetic is reduced modulo this. -/
def M32 : Nat := 4294967296

/-- 32-bit right rotation. -/
def rotr (n x : Nat) : Nat := ((x >>> n) ||| (x <<< (32 - n))) % M32

/-- SHA-256 Σ₀. -/
def bigSigma0 (x : Nat) : Nat := rotr 2 x ^^^ rotr 13 x ^^^ rotr 22 x

/-- SHA-256 Σ₁. -/
def bigSigma1 (x : Nat) : Nat := rotr 6 x ^^^ rotr 11 x ^^^ rotr 25 x

/-- SHA-256 σ₀. -/
def smallSigma0 (x : Nat) : Nat := rotr 7 x ^^^ rotr 18 x ^^^ (x >>> 3)

/-- SHA-256 σ₁. -/
def smallSigma1 (x : Nat) : Nat := rotr 17 x ^^^ rotr 19 x ^^^ (x >>> 10)

/-- The eight 32-bit words of a SHA-256 state. -/
structure H8 where
  ha : Nat
  hb : Nat
  hc : Nat
  hd : Nat
  he : Nat
  hf : Nat
  hg : Nat
  hh : Nat
deriving Repr, DecidableEq

/-- SHA-256 initial state (FIPS 180-4, written in decimal). -/
def H0 : H8 :=
  ⟨1779033703, 3144134277, 1013904242, 2773480762,
   1359893119, 2600822924, 528734635, 1541459225⟩

/-- The 64 SHA-256 round constants (FIPS 180-4, written in decimal). -/
def K : List Nat :=
  [1116352408, 1899447441, 3049323471, 3921009573,
   961987163, 1508970993, 2453635748, 2870763221,
   3624381080, 310598401, 607225278, 1426881987,
   1925078388, 2162078206, 2614888103, 3248222580,
   3835390401, 4022224774, 264347078, 604807628,
   770255983, 1249150122, 1555081692, 1996064986,
   2554220882, 2821834349, 2952996808, 3210313671,
   3336571891, 3584528711, 113926993, 338241895,
   666307205, 773529912, 1294757372, 1396182291,
   1695183700, 1986661051, 2177026350, 2456956037,
   2730485921, 2820302411, 3259730800, 3345764771,
   3516065817, 3600352804, 4094571909, 275423344,
   430227734, 506948616, 659060556, 883997877,
   958139571, 1322822218, 1537002063, 1747873779,
   1955562222, 2024104815, 2227730452, 2361852424,
   2428436474, 2756734187, 3204031479, 3329325298]

/-- One SHA-256 compression round, consuming a pair (round constant, schedule word). -/
def round1 (kw : Nat × Nat) (s : H8) : H8 :=
  let ch := (s.he &&& s.hf) ^^^ ((s.he ^^^ (M32 - 1)) &&& s.hg)
  let t1 := (s.hh + bigSigma1 s.he + ch + kw.1 + kw.2) % M32
  let maj := (s.ha &&& s.hb) ^^^ (s.ha &&& s.hc) ^^^ (s.hb &&& s.hc)
  let t2 := (bigSigma0 s.ha + maj) % M32
  ⟨(t1 + t2) % M32, s.ha, s.hb, s.hc, (s.hd + t1) % M32, s.he, s.hf, s.hg⟩

/-- Fold of `round1` over a list of (constant, word) pairs. -/
def rounds : List (Nat × Nat) → H8 → H8
  | [], s => s
  | kw :: rest, s => rounds rest (round1 kw s)

/-- Extend the 16-word message schedule by `n` further words. -/
def extendW : Nat → List Nat → List Nat
  | 0, w => w
  | n + 1, w =>
    let k := w.length
    let x := (w.getD (k - 16) 0 + smallSigma0 (w.getD (k - 15) 0) +
              w.getD (k - 7) 0 + smallSigma1 (w.getD (k - 2) 0)) % M32
    extendW n (w ++ [x])

/-- Big-endian packing of bytes into 32-bit words. -/
def toWords : List Nat → List Nat
  | b0 :: b1 :: b2 :: b3 :: rest =>
    (((b0 * 256 + b1) * 256 + b2) * 256 + b3) :: toWords rest
  | _ => []

/-- `n`-byte big-endian encoding of `v`. -/
def natToBytesBE : Nat → Nat → List Nat
  | 0, _ => []
  | n + 1, v => natToBytesBE n (v / 256) ++ [v % 256]

/-- SHA-256 padding: append `0x80`, zeros, and the 64-bit bit-length. -/
def shaPad (ms : List Nat) : List Nat :=
  let z := (64 - ((ms.length + 9) % 64)) % 64
  ms ++ [128] ++ List.replicate z 0 ++ natToBytesBE 8 (8 * ms.length)

/-- Process one 64-byte block. -/
def compress (s : H8) (block : List Nat) : H8 :=
  let w := extendW 48 (toWords block)
  let r := rounds (K.zip w) s
  ⟨(s.ha + r.ha) % M32, (s.hb + r.hb) % M32, (s.hc + r.hc) % M32,
   (s.hd + r.hd) % M32, (s.he + r.he) % M32, (s.hf + r.hf) % M32,
   (s.hg + r.hg) % M32, (s.hh + r.hh) % M32⟩

/-- Fold `compress` over the 64-byte blocks of a padded message.  The first
argument is fuel bounding the number of blocks; any fuel at least the number
of blocks (e.g. the byte length of the padded message) gives the full fold. -/
def blocksGo : Nat → H8 → List Nat → H8
  | 0, s, _ => s
  | _ + 1, s, [] => s
  | fuel + 1, s, ms => blocksGo fuel (compress s (ms.take 64)) (ms.drop 64)

/-- SHA-256 of a byte list, as the 32-byte digest. -/
def sha256 (ms : List Nat) : List Nat :=
  let r := blocksGo (shaPad ms).length H0 (shaPad ms)
  natToBytesBE 4 r.ha ++ natToBytesBE 4 r.hb ++ natToBytesBE 4 r.hc ++
  natToBytesBE 4 r.hd ++ natToBytesBE 4 r.he ++ natToBytesBE 4 r.hf ++
  natToBytesBE 4 r.hg ++ natToBytesBE 4 r.hh

/-- Lowercase hex character for a value below 16. -/
def hexChar (n : Nat) : Char := if n < 10 then Char.ofNat (48 + n) else Char.ofNat (87 + n)

/-- Lowercase hex string of a byte list. -/
def bytesToHex (bs : List Nat) : String :=
  ⟨(bs.map fun b => [hexChar (b / 16), hexChar (b % 16)]).flatten⟩

/-- UTF-8 encoding of a single code point. -/
def utf8Bytes (c : Nat) : List Nat :=
  if c < 128 then [c]
  else if c < 2048 then [192 + c / 64, 128 + c % 64]
  else if c < 65536 then [224 + c / 4096, 128 + c / 64 % 64, 128 + c % 64]
  else [240 + c / 262144, 128 + c / 4096 % 64, 128 + c / 64 % 64, 128 + c % 64]

/-- UTF-8 bytes of a string (Python `text.encode('utf-8')`). -/
def strBytes (s : String) : List Nat := (s.toList.map fun c => utf8Bytes c.toNat).flatten

/-- `get_text_hash` (src/tts.py, lines 24-35):
`hashlib.sha256(text.encode('utf-8')).hexdigest()`.  Note that only `text`
enters the digest; the language and rate parameters of `text_to_speech` do not. -/
def get_text_hash (text : String) : String := bytesToHex (sha256 (strBytes text))

/-- A cache directory entry: file name and byte contents. -/
abbrev Entry := String × List Nat

/-- State of the `tts_cache` storage namespace.  `dir = none` models a missing
directory; `dir = some entries` models the directory with its files.  `ioFail`
models an unreadable directory: `os.listdir` / `os.path.getsize` raise an
`OSError` (only `clear_cache` and `get_cache_stats` enumerate the directory,
so only they observe it; `os.path.exists` does not raise). -/
structure FS where
  dir : Option (List Entry)
  ioFail : Bool
deriving Repr, DecidableEq

/-- `ensure_cache_dir` (src/tts.py, lines 16-21): create the cache directory
if it does not exist. -/
def ensure_cache_dir (fs : FS) : FS := { fs with dir := some (fs.dir.getD []) }

/-- Outcome of `gTTS(text=..., lang=..., slow=...)` followed by
`tts.save(cache_path)` for one request.  `ok bytes` is a successful save
writing the full artifact.  `err written` is a raised exception: `written` is
what the failed save left at the destination path — `none` when the failure
happened before the destination file was created (e.g. in the `gTTS`
constructor), `some bs` when `save` opened the destination and streamed `bs`
before failing (`gTTS.save` opens the file and then streams the HTTP response
into it, so `bs` may be empty or a strict prefix of the artifact). -/
inductive SaveResult where
  | ok (bytes : List Nat)
  | err (written : Option (List Nat))
deriving Repr, DecidableEq

/-- The external synthesis backend as an oracle: what the `gTTS` call does for
a given (text, language, slow) request. -/
abbrev Backend := String → String → Bool → SaveResult

/-- ASCII whitespace as recognized by Python `str.strip()`. -/
def pyIsSpace (c : Char) : Bool :=
  c = ' ' || c = '\t' || c = '\n' || c = '\r' || c = '\x0b' || c = '\x0c'

/-- Python `not text or not text.strip()`: true iff `text` is empty or
consists only of whitespace. -/
def isBlank (text : String) : Bool := text.toList.all pyIsSpace

/-- The cache file name for a text: `f"{text_hash}.mp3"` (line 58). -/
def cache_filename (text : String) : String := get_text_hash text ++ ".mp3"

/-- The cache path: `os.path.join(TTS_CACHE_DIR, cache_filename)` (line 59). -/
def cache_path (text : String) : String := "tts_cache/" ++ cache_filename text

/-- `os.path.exists` on a file of the cache directory. -/
def fileExists (fs : FS) (name : String) : Bool :=
  (fs.dir.getD []).any (fun e => e.1 == name)

/-- Reading a file of the cache directory. -/
def readFileBytes (fs : FS) (name : String) : Option (List Nat) :=
  ((fs.dir.getD []).find? (fun e => e.1 == name)).map (fun e => e.2)

/-- Writing a (new) file into the cache directory. -/
def writeFileBytes (fs : FS) (name : String) (bs : List Nat) : FS :=
  { fs with dir := some ((fs.dir.getD []) ++ [(name, bs)]) }

/-- `text_to_speech` (src/tts.py, lines 38-76).  Returns the value Python
returns (the cache path, or `None`) and the resulting storage state.
Steps, as in the source: reject blank text; `ensure_cache_dir`; compute the
hash-based cache path; return it if the file exists; otherwise run the gTTS
backend saving to the cache path, returning the path on success and `None` on
a caught exception (which may have left partial bytes at the path). -/
def text_to_speech (backend : Backend) (text language : String) (slow : Bool)
    (fs : FS) : Option String × FS :=
  if isBlank text then (none, fs)
  else
    let fs1 := ensure_cache_dir fs
    if fileExists fs1 (cache_filename text) then (some (cache_path text), fs1)
    else
      match backend text language slow with
      | SaveResult.ok bs => (some (cache_path text), writeFileBytes fs1 (cache_filename text) bs)
      | SaveResult.err none => (none, fs1)
      | SaveResult.err (some bs) => (none, writeFileBytes fs1 (cache_filename text) bs)

/-- `text_to_speech_bytes` (src/tts.py, lines 79-101): call `text_to_speech`,
then read the produced file if the returned path exists. -/
def text_to_speech_bytes (backend : Backend) (text language : String) (slow : Bool)
    (fs : FS) : Option (List Nat) × FS :=
  let r := text_to_speech backend text language slow fs
  match r.1 with
  | none => (none, r.2)
  | some _ =>
    if fileExists r.2 (cache_filename text) then (readFileBytes r.2 (cache_filename text), r.2)
    else (none, r.2)

/-- Python `f.endswith('.mp3')`: does the file name end in ".mp3"?
(A character-list suffix test, equivalent to `String.endsWith`.) -/
def isMp3 (name : String) : Bool := List.isSuffixOf ".mp3".toList name.toList

/-- `clear_cache` (src/tts.py, lines 104-129).  The returned `Nat` is the
number of files removed, which is what the source reports (it prints
`Cleared {len(files)} cached audio files`; the Python function itself returns
`None`).  Missing directory: return without touching anything.  `os.listdir`
raising is caught: nothing is removed.  If `max_files` is given and the
`.mp3` count is at most it, no-op; otherwise remove every `.mp3` file. -/
def clear_cache (max_files : Option Nat) (fs : FS) : FS × Nat :=
  match fs.dir with
  | none => (fs, 0)
  | some entries =>
    if fs.ioFail then (fs, 0)
    else
      let files := entries.filter (fun e => isMp3 e.1)
      let cleared : FS × Nat :=
        ({ fs with dir := some (entries.filter (fun e => !isMp3 e.1)) }, files.length)
      match max_files with
      | some m => if files.length ≤ m then (fs, 0) else cleared
      | none => cleared

/-- Result of `get_cache_stats`: `{'file_count': ..., 'total_size_mb': ...}`.
The megabyte figure is modelled as an exact rational. -/
structure CacheStats where
  file_count : Nat
  total_size_mb : ℚ
deriving Repr, DecidableEq

/-- Round-half-to-even to an integer, as Python `round` ties are resolved. -/
def roundHalfEven (q : ℚ) : ℤ :=
  let f := ⌊q⌋
  if q - f < 1 / 2 then f
  else if 1 / 2 < q - f then f + 1
  else if f % 2 = 0 then f else f + 1

/-- Python `round(x, 2)`: round to 2 decimal places, ties to even. -/
def pyRound2 (q : ℚ) : ℚ := (roundHalfEven (q * 100) : ℚ) / 100

/-- `get_cache_stats` (src/tts.py, lines 132-156).  Missing directory, or
`os.listdir` / `os.path.getsize` raising (caught): zero stats.  Otherwise
count the `.mp3` files and their total size, `round(total / (1024*1024), 2)`
megabytes. -/
def get_cache_stats (fs : FS) : CacheStats :=
  match fs.dir with
  | none => ⟨0, 0⟩
  | some entries =>
    if fs.ioFail then ⟨0, 0⟩
    else
      let files := entries.filter (fun e => isMp3 e.1)
      let total : Nat := (files.map (fun e => e.2.length)).sum
      ⟨files.length, pyRound2 ((total : ℚ) / (1024 * 1024))⟩

/-- Number of `.mp3` entries of the store (the spec's `count()`). -/
def entryCount (fs : FS) : Nat := ((fs.dir.getD []).filter (fun e => isMp3 e.1)).length

/-- Total byte size of the `.mp3` entries of the store. -/
def mp3TotalSize (fs : FS) : Nat :=
  (((fs.dir.getD []).filter (fun e => isMp3 e.1)).map (fun e => e.2.length)).sum

/-- An example backend whose synthesis always succeeds and whose produced bytes
depend on the requested language and rate: [1, 2, 3] for English at normal
rate, [7, 7] for anything else. -/
def bLangRate : Backend := fun _ language slow =>
  if language == "en" && !slow then SaveResult.ok [1, 2, 3] else SaveResult.ok [7, 7]

/-- An example backend whose synthesis always succeeds with bytes [1, 2, 3]. -/
def bOk : Backend := fun _ _ _ => SaveResult.ok [1, 2, 3]

/-- An example backend that always fails before the destination file is
created (e.g. the `gTTS` constructor raises). -/
def bFailClean : Backend := fun _ _ _ => SaveResult.err none

/-- An example backend that always fails during `save`, leaving the single
byte 55 at the destination path. -/
def bFailDirty : Backend := fun _ _ _ => SaveResult.err (some [55])

/-- An existing, empty, readable cache directory. -/
def fsEmpty : FS := ⟨some [], false⟩

/-- A missing cache directory. -/
def fsNone : FS := ⟨none, false⟩

/-- A store already holding the artifact for "Hello" with bytes [1, 2, 3]. -/
def fsHello : FS := ⟨some [(cache_filename "Hello", [1, 2, 3])], false⟩

/-- A store with one artifact whose directory enumeration fails. -/
def fsErr : FS := ⟨some [("a.mp3", [1, 2, 3])], true⟩

/-- A readable store with one artifact and one unrelated non-mp3 file. -/
def fsA : FS := ⟨some [("a.mp3", [1, 2, 3]), ("note.txt", [9])], false⟩

/-- Two artifacts with known sizes 3 and 2 bytes. -/
def esW : List Entry := [("a.mp3", [1, 2, 3]), ("b.mp3", [4, 5])]

end TTS

/-- Sanity check of the SHA-256 embedding against the standard test vector
for the message "abc". -/
theorem sha256_spot_check :
    TTS.get_text_hash "abc" =
      "ba7816bf8f01cfea414140de5dae2223b00361a396177a9cb410ff61f20015ad" := by
  decide

/-- `ensure_cache_dir` does not change a state whose directory exists. -/
theorem ensure_cache_dir_of_some (fs : TTS.FS) (es : List TTS.Entry)
    (h : fs.dir = some es) : TTS.ensure_cache_dir fs = fs := by
  obtain ⟨d, io⟩ := fs
  subst h
  rfl

/-- `find?` on an appended list, when the left part already finds a hit. -/
theorem find?_append_left {α : Type} (p : α → Bool) (l₁ l₂ : List α) (x : α)
    (h : l₁.find? p = some x) : (l₁ ++ l₂).find? p = some x := by
  simp [List.find?_append, h]

/-- `find?` for a name appended to a list that does not contain it. -/
theorem find?_append_fresh (l : List TTS.Entry) (name : String) (bs : List Nat)
    (h : l.any (fun e => e.1 == name) = false) :
    (l ++ [(name, bs)]).find? (fun e => e.1 == name) = some (name, bs) := by
  have hn : l.find? (fun e => e.1 == name) = none := by
    rw [List.find?_eq_none]
    intro x hx hpx
    have hany : l.any (fun e => e.1 == name) = true := List.any_eq_true.mpr ⟨x, hx, hpx⟩
    rw [h] at hany
    exact absurd hany (by decide)
  simp [List.find?_append, hn]

/-- `fileExists` is unaffected by `ensure_cache_dir`. -/
theorem fileExists_ensure (fs : TTS.FS) (name : String) :
    TTS.fileExists (TTS.ensure_cache_dir fs) name = TTS.fileExists fs name := rfl

/-- `ensure_cache_dir` is idempotent. -/
theorem ensure_ensure (fs : TTS.FS) :
    TTS.ensure_cache_dir (TTS.ensure_cache_dir fs) = TTS.ensure_cache_dir fs := rfl

/-- The directory exists after a write, so `ensure_cache_dir` is the identity
on it. -/
theorem ensure_write (fs : TTS.FS) (name : String) (bs : List Nat) :
    TTS.ensure_cache_dir (TTS.writeFileBytes fs name bs) = TTS.writeFileBytes fs name bs := rfl

/-- A written file exists. -/
theorem fileExists_write (fs : TTS.FS) (name : String) (bs : List Nat) :
    TTS.fileExists (TTS.writeFileBytes fs name bs) name = true := by
  simp [TTS.fileExists, TTS.writeFileBytes]

/-- Reading back a freshly written file yields exactly the written bytes. -/
theorem readFileBytes_write_fresh (fs : TTS.FS) (name : String) (bs : List Nat)
    (h : TTS.fileExists fs name = false) :
    TTS.readFileBytes (TTS.writeFileBytes fs name bs) name = some bs := by
  show (((fs.dir.getD [] ++ [(name, bs)]).find? (fun e => e.1 == name)).map
      (fun e => e.2)) = some bs
  rw [find?_append_fresh _ _ _ h]
  rfl

set_option maxRecDepth 16384 in
/-- C1: the claim requires the cache key to discriminate on language and rate.
The code's key is `sha256(text)` alone (`get_text_hash`), so two requests with
the same text but different language and rate collide on one key: after the
English normal-rate artifact for "Hello" is cached, the French slow-rate
request for "Hello" is served the same locator and the English bytes [1, 2, 3]
as a cache hit (the backend's French artifact [7, 7] is never stored), with
the store unchanged. -/
theorem C1_key_collision_across_language_and_rate :
    (TTS.text_to_speech TTS.bLangRate "Hello" "en" false TTS.fsEmpty).1
        = some (TTS.cache_path "Hello") ∧
    TTS.text_to_speech TTS.bLangRate "Hello" "fr" true
        (TTS.text_to_speech TTS.bLangRate "Hello" "en" false TTS.fsEmpty).2
      = (some (TTS.cache_path "Hello"),
         (TTS.text_to_speech TTS.bLangRate "Hello" "en" false TTS.fsEmpty).2) ∧
    TTS.readFileBytes (TTS.text_to_speech TTS.bLangRate "Hello" "en" false TTS.fsEmpty).2
        (TTS.cache_filename "Hello") = some [1, 2, 3] := by
  decide

/-- C2: for blank text (empty or whitespace-only), `text_to_speech` returns
`None` with the store state unchanged, for every backend and every store state
— so the backend is not invoked and the store is neither read nor written (the
result does not depend on either). -/
theorem C2_blank_short_circuit (backend : TTS.Backend) (text language : String)
    (slow : Bool) (fs : TTS.FS) (h : TTS.isBlank text = true) :
    TTS.text_to_speech backend text language slow fs = (none, fs) := by
  simp [TTS.text_to_speech, h]

/-- Witness for C2 at the whitespace-only text "   ". -/
theorem C2_blank_short_circuit_witness :
    TTS.isBlank "   " = true ∧
    TTS.text_to_speech TTS.bOk "   " "en" false TTS.fsEmpty = (none, TTS.fsEmpty) :=
  ⟨by decide, C2_blank_short_circuit TTS.bOk "   " "en" false TTS.fsEmpty (by decide)⟩

/-- C3: cache hit: when the artifact for the key is already present,
`text_to_speech` returns the existing locator with the store unchanged, for
every backend — so the backend is not invoked.  Consequently a call identical
to a first call whose synthesis succeeded returns exactly the first call's
locator and store, again for every backend of the second call, so across the
two calls the backend runs at most once. -/
theorem C3_cache_hit_serves_existing (text language : String) (slow : Bool)
    (fs : TTS.FS)
    (hb : TTS.isBlank text = false)
    (hex : TTS.fileExists fs (TTS.cache_filename text) = true) :
    (∀ backend, TTS.text_to_speech backend text language slow fs
        = (some (TTS.cache_path text), fs)) ∧
    (∀ (b1 b2 : TTS.Backend) (bs : List Nat) (fs' : TTS.FS),
        b1 text language slow = TTS.SaveResult.ok bs →
        TTS.text_to_speech b2 text language slow
            (TTS.text_to_speech b1 text language slow fs').2
          = TTS.text_to_speech b1 text language slow fs') := by
  refine ⟨fun backend => ?_, fun b1 b2 bs fs' hok => ?_⟩
  · obtain ⟨d, io⟩ := fs
    cases d with
    | none => simp [TTS.fileExists] at hex
    | some es =>
      simp [TTS.text_to_speech, TTS.ensure_cache_dir, hb, hex]
  · cases hfe : TTS.fileExists fs' (TTS.cache_filename text) with
    | true =>
      simp [TTS.text_to_speech, hb, fileExists_ensure, hfe, ensure_ensure]
    | false =>
      simp [TTS.text_to_speech, hb, fileExists_ensure, hfe, hok, ensure_write,
        fileExists_write]

/-- Witness for C3: a store already holding the "Hello" artifact serves it
unchanged, and a second identical call after a successful first call returns
the first call's result unchanged. -/
theorem C3_cache_hit_serves_existing_witness :
    (TTS.isBlank "Hello" = false ∧
     TTS.fileExists TTS.fsHello (TTS.cache_filename "Hello") = true) ∧
    TTS.text_to_speech TTS.bOk "Hello" "en" false TTS.fsHello
      = (some (TTS.cache_path "Hello"), TTS.fsHello) ∧
    TTS.text_to_speech TTS.bOk "Hello" "en" false
        (TTS.text_to_speech TTS.bOk "Hello" "en" false TTS.fsEmpty).2
      = TTS.text_to_speech TTS.bOk "Hello" "en" false TTS.fsEmpty :=
  ⟨⟨by decide, by decide⟩,
   (C3_cache_hit_serves_existing "Hello" "en" false TTS.fsHello (by decide) (by decide)).1
     TTS.bOk,
   (C3_cache_hit_serves_existing "Hello" "en" false TTS.fsHello (by decide) (by decide)).2
     TTS.bOk TTS.bOk [1, 2, 3] TTS.fsEmpty rfl⟩

/-- C4: cache miss with successful synthesis: the returned locator is the
key's cache path, the store afterwards contains the artifact under that key
with exactly the bytes the backend produced, and `text_to_speech_bytes` reads
back exactly those bytes. -/
theorem C4_miss_populates_store (backend : TTS.Backend) (text language : String)
    (slow : Bool) (fs : TTS.FS) (bs : List Nat)
    (hb : TTS.isBlank text = false)
    (hfresh : TTS.fileExists fs (TTS.cache_filename text) = false)
    (hok : backend text language slow = TTS.SaveResult.ok bs) :
    (TTS.text_to_speech backend text language slow fs).1 = some (TTS.cache_path text) ∧
    TTS.fileExists (TTS.text_to_speech backend text language slow fs).2
        (TTS.cache_filename text) = true ∧
    TTS.readFileBytes (TTS.text_to_speech backend text language slow fs).2
        (TTS.cache_filename text) = some bs ∧
    TTS.text_to_speech_bytes backend text language slow fs
      = (some bs, (TTS.text_to_speech backend text language slow fs).2) := by
  have hrun : TTS.text_to_speech backend text language slow fs
      = (some (TTS.cache_path text),
         TTS.writeFileBytes (TTS.ensure_cache_dir fs) (TTS.cache_filename text) bs) := by
    simp [TTS.text_to_speech, hb, fileExists_ensure, hfresh, hok]
  have hread : TTS.readFileBytes
      (TTS.writeFileBytes (TTS.ensure_cache_dir fs) (TTS.cache_filename text) bs)
      (TTS.cache_filename text) = some bs :=
    readFileBytes_write_fresh (TTS.ensure_cache_dir fs) (TTS.cache_filename text) bs hfresh
  refine ⟨by rw [hrun], ?_, ?_, ?_⟩
  · rw [hrun]
    exact fileExists_write _ _ _
  · rw [hrun]
    exact hread
  · simp [TTS.text_to_speech_bytes, hrun, fileExists_write, hread]

/-- Witness for C4: synthesizing "Hello" into an empty store. -/
theorem C4_miss_populates_store_witness :
    (TTS.isBlank "Hello" = false ∧
     TTS.fileExists TTS.fsEmpty (TTS.cache_filename "Hello") = false ∧
     TTS.bOk "Hello" "en" false = TTS.SaveResult.ok [1, 2, 3]) ∧
    ((TTS.text_to_speech TTS.bOk "Hello" "en" false TTS.fsEmpty).1
        = some (TTS.cache_path "Hello") ∧
     TTS.fileExists (TTS.text_to_speech TTS.bOk "Hello" "en" false TTS.fsEmpty).2
        (TTS.cache_filename "Hello") = true ∧
     TTS.readFileBytes (TTS.text_to_speech TTS.bOk "Hello" "en" false TTS.fsEmpty).2
        (TTS.cache_filename "Hello") = some [1, 2, 3] ∧
     TTS.text_to_speech_bytes TTS.bOk "Hello" "en" false TTS.fsEmpty
        = (some [1, 2, 3], (TTS.text_to_speech TTS.bOk "Hello" "en" false TTS.fsEmpty).2)) :=
  ⟨⟨by decide, by decide, rfl⟩,
   C4_miss_populates_store TTS.bOk "Hello" "en" false TTS.fsEmpty [1, 2, 3]
     (by decide) (by decide) rfl⟩

set_option maxRecDepth 16384 in
/-- C5 counterexample: the code streams the synthesis output directly to the
final cache path, so a backend failure during `save` (modelled by
`bFailDirty`, which leaves the byte 55 at the destination) makes
`text_to_speech` return `None` but leaves the store changed: a truncated
artifact is observable under the key, refuting "the cache store is left
exactly as it was before the call ... no partial or truncated artifact is
observable under that key". -/
theorem C5_counterexample_partial_artifact :
    (TTS.text_to_speech TTS.bFailDirty "Hi" "en" false TTS.fsEmpty).1 = none ∧
    (TTS.text_to_speech TTS.bFailDirty "Hi" "en" false TTS.fsEmpty).2 ≠ TTS.fsEmpty ∧
    TTS.readFileBytes (TTS.text_to_speech TTS.bFailDirty "Hi" "en" false TTS.fsEmpty).2
        (TTS.cache_filename "Hi") = some [55] := by
  decide

/-- C5 (amended): on backend failure `text_to_speech` returns `None`; and when
the cache directory exists and the failure wrote nothing to the destination
path, the store is left exactly as it was before the call. -/
theorem C5_failure_degrades_to_none (backend : TTS.Backend) (text language : String)
    (slow : Bool) (fs : TTS.FS) (es : List TTS.Entry) (w : Option (List Nat))
    (hdir : fs.dir = some es)
    (hb : TTS.isBlank text = false)
    (hfresh : TTS.fileExists fs (TTS.cache_filename text) = false)
    (hfail : backend text language slow = TTS.SaveResult.err w) :
    (TTS.text_to_speech backend text language slow fs).1 = none ∧
    (w = none → TTS.text_to_speech backend text language slow fs = (none, fs)) := by
  have he : TTS.ensure_cache_dir fs = fs := ensure_cache_dir_of_some fs es hdir
  cases w with
  | none =>
    have hrun : TTS.text_to_speech backend text language slow fs = (none, fs) := by
      simp [TTS.text_to_speech, hb, fileExists_ensure, hfresh, hfail, he]
    exact ⟨by rw [hrun], fun _ => hrun⟩
  | some ws =>
    refine ⟨?_, fun hcon => by simp at hcon⟩
    simp [TTS.text_to_speech, hb, fileExists_ensure, hfresh, hfail]

/-- Witness for C5 (amended): a clean failure on "Hi" over an existing empty
directory returns `None` and leaves the store untouched. -/
theorem C5_failure_degrades_to_none_witness :
    (TTS.fsEmpty.dir = some [] ∧ TTS.isBlank "Hi" = false ∧
     TTS.fileExists TTS.fsEmpty (TTS.cache_filename "Hi") = false ∧
     TTS.bFailClean "Hi" "en" false = TTS.SaveResult.err none) ∧
    ((TTS.text_to_speech TTS.bFailClean "Hi" "en" false TTS.fsEmpty).1 = none ∧
     (none = (none : Option (List Nat)) →
       TTS.text_to_speech TTS.bFailClean "Hi" "en" false TTS.fsEmpty
         = (none, TTS.fsEmpty))) :=
  ⟨⟨rfl, by decide, by decide, rfl⟩,
   C5_failure_degrades_to_none TTS.bFailClean "Hi" "en" false TTS.fsEmpty [] none
     rfl (by decide) (by decide) rfl⟩

/-- Filtering for `.mp3` after having filtered them away yields nothing. -/
theorem filter_mp3_filter_not (l : List TTS.Entry) :
    (l.filter (fun e => !TTS.isMp3 e.1)).filter (fun e => TTS.isMp3 e.1) = [] := by
  induction l with
  | nil => rfl
  | cons a t ih =>
    cases h : TTS.isMp3 a.1 with
    | true => simp [List.filter_cons, h, ih]
    | false => simp [List.filter_cons, h, ih]

/-- C6: `clear_cache max_files` is a no-op reporting 0 removals when the entry
count is at most `max_files`, and removes every entry (leaving count zero)
reporting the prior count when the count exceeds `max_files`; `clear_cache`
without a threshold always removes every entry, reports the prior count as the
number removed, and leaves the store with count zero. -/
theorem C6_clear_semantics (fs : TTS.FS) (m : Nat) (hio : fs.ioFail = false) :
    (TTS.entryCount fs ≤ m → TTS.clear_cache (some m) fs = (fs, 0)) ∧
    (m < TTS.entryCount fs →
      (TTS.clear_cache (some m) fs).2 = TTS.entryCount fs ∧
      TTS.entryCount (TTS.clear_cache (some m) fs).1 = 0) ∧
    (TTS.clear_cache none fs).2 = TTS.entryCount fs ∧
    TTS.entryCount (TTS.clear_cache none fs).1 = 0 := by
  obtain ⟨d, io⟩ := fs
  have hio' : io = false := hio
  subst hio'
  cases d with
  | none =>
    exact ⟨fun _ => rfl, fun hlt => absurd hlt (Nat.not_lt_zero m), rfl, rfl⟩
  | some es =>
    refine ⟨fun hle => ?_, fun hlt => ⟨?_, ?_⟩, ?_, ?_⟩
    · have hle' : (es.filter (fun e => TTS.isMp3 e.1)).length ≤ m := hle
      simp [TTS.clear_cache, hle']
    · have hn : ¬ (es.filter (fun e => TTS.isMp3 e.1)).length ≤ m := Nat.not_le.mpr hlt
      simp [TTS.clear_cache, hn, TTS.entryCount]
    · have hn : ¬ (es.filter (fun e => TTS.isMp3 e.1)).length ≤ m := Nat.not_le.mpr hlt
      simp [TTS.clear_cache, hn, TTS.entryCount, filter_mp3_filter_not]
    · simp [TTS.clear_cache, TTS.entryCount]
    · simp [TTS.clear_cache, TTS.entryCount, filter_mp3_filter_not]

/-- Witness for C6 on a store with one artifact: threshold 1 is a no-op,
threshold 0 clears and reports 1, unconditional clear reports 1 and empties. -/
theorem C6_clear_semantics_witness :
    TTS.fsA.ioFail = false ∧
    TTS.clear_cache (some 1) TTS.fsA = (TTS.fsA, 0) ∧
    (TTS.clear_cache (some 0) TTS.fsA).2 = TTS.entryCount TTS.fsA ∧
    TTS.entryCount (TTS.clear_cache (some 0) TTS.fsA).1 = 0 ∧
    (TTS.clear_cache none TTS.fsA).2 = TTS.entryCount TTS.fsA ∧
    TTS.entryCount (TTS.clear_cache none TTS.fsA).1 = 0 :=
  ⟨rfl,
   (C6_clear_semantics TTS.fsA 1 rfl).1 (by decide),
   ((C6_clear_semantics TTS.fsA 0 rfl).2.1 (by decide)).1,
   ((C6_clear_semantics TTS.fsA 0 rfl).2.1 (by decide)).2,
   (C6_clear_semantics TTS.fsA 0 rfl).2.2.1,
   (C6_clear_semantics TTS.fsA 0 rfl).2.2.2⟩

/-- C7: for a readable store holding exactly the artifacts `es` (all `.mp3`),
`get_cache_stats` reports `file_count` equal to their number and
`total_size_mb` equal to their summed byte size divided by 1024*1024 and
rounded to two decimal places. -/
theorem C7_stats_correct (es : List TTS.Entry)
    (hmp3 : ∀ e ∈ es, TTS.isMp3 e.1 = true) :
    TTS.get_cache_stats ⟨some es, false⟩
      = ⟨es.length,
         TTS.pyRound2 ((((es.map (fun e => e.2.length)).sum : Nat) : ℚ)
           / (1024 * 1024))⟩ := by
  have hf : es.filter (fun e => TTS.isMp3 e.1) = es := List.filter_eq_self.mpr hmp3
  simp [TTS.get_cache_stats, hf]

/-- Witness for C7 on two artifacts of sizes 3 and 2 bytes. -/
theorem C7_stats_correct_witness :
    (∀ e ∈ TTS.esW, TTS.isMp3 e.1 = true) ∧
    TTS.get_cache_stats ⟨some TTS.esW, false⟩
      = ⟨TTS.esW.length,
         TTS.pyRound2 ((((TTS.esW.map (fun e => e.2.length)).sum : Nat) : ℚ)
           / (1024 * 1024))⟩ :=
  ⟨by decide, C7_stats_correct TTS.esW (by decide)⟩

/-- C8 counterexample: with the cache directory present but unreadable
(`os.listdir` raising), `get_cache_stats` returns exactly the value a missing
cache produces and `clear_cache` silently removes nothing — the storage
failure is coerced into the empty result instead of surfacing as a
distinguishable error. -/
theorem C8_counterexample_error_masquerades :
    TTS.get_cache_stats TTS.fsErr = TTS.get_cache_stats TTS.fsNone ∧
    TTS.get_cache_stats TTS.fsErr = ⟨0, 0⟩ ∧
    TTS.clear_cache none TTS.fsErr = (TTS.fsErr, 0) := by
  decide

/-- C8 (amended): every directory-enumeration failure is caught inside the
module and coerced to the value an empty or missing cache produces:
`get_cache_stats` returns exactly the missing-cache stats and `clear_cache`
removes nothing and reports 0 — no distinguishable error surfaces. -/
theorem C8_errors_coerced_to_empty (fs : TTS.FS) (m : Option Nat)
    (h : fs.ioFail = true) :
    TTS.get_cache_stats fs = TTS.get_cache_stats TTS.fsNone ∧
    TTS.clear_cache m fs = (fs, 0) := by
  obtain ⟨d, io⟩ := fs
  have h' : io = true := h
  subst h'
  cases d with
  | none => exact ⟨rfl, rfl⟩
  | some es => exact ⟨rfl, rfl⟩

/-- Witness for C8 (amended) on a one-artifact store whose enumeration fails. -/
theorem C8_errors_coerced_to_empty_witness :
    TTS.fsErr.ioFail = true ∧
    (TTS.get_cache_stats TTS.fsErr = TTS.get_cache_stats TTS.fsNone ∧
     TTS.clear_cache (some 0) TTS.fsErr = (TTS.fsErr, 0)) :=
  ⟨rfl, C8_errors_coerced_to_empty TTS.fsErr (some 0) rfl⟩

/-- The store state after `text_to_speech` is the input state, the input state
with the directory ensured, or that state with one file appended under the
text's key. -/
theorem text_to_speech_state (backend : TTS.Backend) (text language : String)
    (slow : Bool) (fs : TTS.FS) :
    (TTS.text_to_speech backend text language slow fs).2 = fs ∨
    (TTS.text_to_speech backend text language slow fs).2 = TTS.ensure_cache_dir fs ∨
    ∃ bs', (TTS.text_to_speech backend text language slow fs).2
      = TTS.writeFileBytes (TTS.ensure_cache_dir fs) (TTS.cache_filename text) bs' := by
  unfold TTS.text_to_speech
  cases hb : TTS.isBlank text with
  | true => simp [hb]
  | false =>
    cases hfe : TTS.fileExists (TTS.ensure_cache_dir fs) (TTS.cache_filename text) with
    | true => simp [hb, hfe]
    | false =>
      cases hres : backend text language slow with
      | ok bs' => simp [hb, hfe, hres]
      | err w =>
        cases w with
        | none => simp [hb, hfe, hres]
        | some ws => simp [hb, hfe, hres]

/-- `readFileBytes` is unaffected by `ensure_cache_dir`. -/
theorem readFileBytes_ensure (fs : TTS.FS) (name : String) :
    TTS.readFileBytes (TTS.ensure_cache_dir fs) name = TTS.readFileBytes fs name := rfl

/-- Appending a file does not change the bytes found for an existing file. -/
theorem readFileBytes_write_other (fs : TTS.FS) (name name' : String)
    (bs' bs : List Nat) (h : TTS.readFileBytes fs name = some bs) :
    TTS.readFileBytes (TTS.writeFileBytes fs name' bs') name = some bs := by
  unfold TTS.readFileBytes at h
  cases hf : (fs.dir.getD []).find? (fun e => e.1 == name) with
  | none => rw [hf] at h; simp at h
  | some e =>
    rw [hf] at h
    show (((fs.dir.getD [] ++ [(name', bs')]).find? (fun e => e.1 == name)).map
      (fun e => e.2)) = some bs
    rw [find?_append_left _ _ _ _ hf]
    exact h

/-- C9: entries are immutable and persist: an artifact present under a name is
still found with identical bytes after any `text_to_speech` call (a hit
returns it untouched, a miss only appends a new entry), and `clear_cache`
either leaves the store exactly as it was or removes the `.mp3` entries
wholesale — no operation rewrites an entry's bytes, and an entry disappears
only through the bulk clear. -/
theorem C9_entries_immutable (backend : TTS.Backend) (text language : String)
    (slow : Bool) (fs : TTS.FS) (name : String) (bs : List Nat) (m : Option Nat)
    (h : TTS.readFileBytes fs name = some bs) :
    TTS.readFileBytes (TTS.text_to_speech backend text language slow fs).2 name
        = some bs ∧
    ((TTS.clear_cache m fs).1 = fs ∨
     (TTS.clear_cache m fs).1
       = { fs with dir := some ((fs.dir.getD []).filter (fun e => !TTS.isMp3 e.1)) }) := by
  constructor
  · rcases text_to_speech_state backend text language slow fs with hs | hs | ⟨bs', hs⟩
    · rw [hs]; exact h
    · rw [hs, readFileBytes_ensure]; exact h
    · rw [hs]
      exact readFileBytes_write_other (TTS.ensure_cache_dir fs) name
        (TTS.cache_filename text) bs' bs (by rw [readFileBytes_ensure]; exact h)
  · obtain ⟨d, io⟩ := fs
    cases d with
    | none => exact Or.inl rfl
    | some es =>
      cases io with
      | true => exact Or.inl rfl
      | false =>
        cases m with
        | none => right; simp [TTS.clear_cache]
        | some mv =>
          by_cases hle : (es.filter (fun e => TTS.isMp3 e.1)).length ≤ mv
          · left; simp [TTS.clear_cache, hle]
          · right; simp [TTS.clear_cache, hle]

/-- Witness for C9: the "Hello" artifact survives, byte-identical, a
`text_to_speech` call for the different text "Hi", and the unconditional clear
is a wholesale removal. -/
theorem C9_entries_immutable_witness :
    TTS.readFileBytes TTS.fsHello (TTS.cache_filename "Hello") = some [1, 2, 3] ∧
    (TTS.readFileBytes (TTS.text_to_speech TTS.bOk "Hi" "en" false TTS.fsHello).2
        (TTS.cache_filename "Hello") = some [1, 2, 3] ∧
     ((TTS.clear_cache none TTS.fsHello).1 = TTS.fsHello ∨
      (TTS.clear_cache none TTS.fsHello).1
        = { TTS.fsHello with
            dir := some ((TTS.fsHello.dir.getD []).filter (fun e => !TTS.isMp3 e.1)) })) :=
  ⟨by decide,
   C9_entries_immutable TTS.bOk "Hi" "en" false TTS.fsHello
     (TTS.cache_filename "Hello") [1, 2, 3] none (by decide)⟩

/-- C10: only `.mp3` files are considered: `clear_cache` keeps every non-mp3
entry and removes only entries that were present (hence only `.mp3` ones),
`get_cache_stats` counts and sizes exactly the `.mp3` entries, and with a
missing cache directory `clear_cache` returns without error and
`get_cache_stats` reports zero files and 0.0 MB. -/
theorem C10_mp3_only_frame (fs : TTS.FS) (m : Option Nat) (io : Bool)
    (hio : fs.ioFail = false) :
    (∀ e, e ∈ fs.dir.getD [] → TTS.isMp3 e.1 = false →
       e ∈ (TTS.clear_cache m fs).1.dir.getD []) ∧
    (∀ e, e ∈ (TTS.clear_cache m fs).1.dir.getD [] → e ∈ fs.dir.getD []) ∧
    TTS.get_cache_stats fs
      = ⟨TTS.entryCount fs,
         TTS.pyRound2 (((TTS.mp3TotalSize fs : Nat) : ℚ) / (1024 * 1024))⟩ ∧
    TTS.clear_cache m ⟨none, io⟩ = (⟨none, io⟩, 0) ∧
    TTS.get_cache_stats ⟨none, io⟩ = ⟨0, 0⟩ := by
  obtain ⟨d, io'⟩ := fs
  have hio' : io' = false := hio
  subst hio'
  have hclear : TTS.clear_cache m (⟨none, io⟩ : TTS.FS) = (⟨none, io⟩, 0) := rfl
  have hstats : TTS.get_cache_stats (⟨none, io⟩ : TTS.FS) = ⟨0, 0⟩ := rfl
  cases d with
  | none =>
    refine ⟨fun e he _ => absurd he (by simp), fun e he => he, ?_, hclear, hstats⟩
    show (⟨0, 0⟩ : TTS.CacheStats) = _
    have h0 : TTS.pyRound2 0 = 0 := by
      norm_num [TTS.pyRound2, TTS.roundHalfEven]
    simp [TTS.entryCount, TTS.mp3TotalSize, h0]
  | some es =>
    have hsplit : (TTS.clear_cache m (⟨some es, false⟩ : TTS.FS)).1
          = (⟨some es, false⟩ : TTS.FS) ∨
        (TTS.clear_cache m (⟨some es, false⟩ : TTS.FS)).1
          = ⟨some (es.filter (fun e => !TTS.isMp3 e.1)), false⟩ := by
      cases m with
      | none => right; simp [TTS.clear_cache]
      | some mv =>
        by_cases hle : (es.filter (fun e => TTS.isMp3 e.1)).length ≤ mv
        · left; simp [TTS.clear_cache, hle]
        · right; simp [TTS.clear_cache, hle]
    refine ⟨?_, ?_, ?_, hclear, hstats⟩
    · intro e he hnm
      rcases hsplit with hs | hs
      · rw [hs]; exact he
      · rw [hs]
        simp only [Option.getD_some] at he ⊢
        exact List.mem_filter.mpr ⟨he, by simp [hnm]⟩
    · intro e he
      rcases hsplit with hs | hs
      · rw [hs] at he; exact he
      · rw [hs] at he
        simp only [Option.getD_some] at he ⊢
        exact List.mem_of_mem_filter he
    · simp [TTS.get_cache_stats, TTS.entryCount, TTS.mp3TotalSize]

/-- Witness for C10: the non-mp3 file survives the unconditional clear, the
stats of a mixed directory are those of its `.mp3` entries, and the
missing-directory cases return the empty results. -/
theorem C10_mp3_only_frame_witness :
    TTS.fsA.ioFail = false ∧
    (("note.txt", [9]) : TTS.Entry) ∈ (TTS.clear_cache none TTS.fsA).1.dir.getD [] ∧
    TTS.get_cache_stats TTS.fsA
      = ⟨TTS.entryCount TTS.fsA,
         TTS.pyRound2 (((TTS.mp3TotalSize TTS.fsA : Nat) : ℚ) / (1024 * 1024))⟩ ∧
    TTS.clear_cache (some 3) ⟨none, false⟩ = (⟨none, false⟩, 0) ∧
    TTS.get_cache_stats ⟨none, false⟩ = ⟨0, 0⟩ :=
  ⟨rfl,
   (C10_mp3_only_frame TTS.fsA none false rfl).1 ("note.txt", [9]) (by decide) (by decide),
   (C10_mp3_only_frame TTS.fsA none false rfl).2.2.1,
   (C10_mp3_only_frame TTS.fsA (some 3) false rfl).2.2.2.1,
   (C10_mp3_only_frame TTS.fsA none false rfl).2.2.2.2⟩
